import Mathlib

/-!
# Verification of the id3cli tag-editing utility

Shallow embedding of the id3cli program (src/lib.rs and src/main.rs) in Lean 4.
The program edits ID3v2.4 tags.  The in-memory tag container and the synchsafe
integer codec live in the external `id3` library; those two pieces are modelled
from the specification (marked `Modelled from the spec:` below).  Everything
else is translated directly from the Rust source.
-/

namespace Id3cli

/-- Picture type roles of the ID3 picture frame (spec §3: "a fixed set of roles
(e.g. CoverFront, CoverBack, Artist, …)"); this system only writes CoverFront. -/
inductive PictureType where
  | CoverFront
  | CoverBack
  | Artist
  | Icon
  | Other
deriving DecidableEq

/-- The `Picture` struct of the tag library: fields as constructed in
`create_picture_frame` (lib.rs 205-212).  Image bytes are modelled as `List Nat`. -/
structure Picture where
  mime_type : String
  picture_type : PictureType
  description : String
  data : List Nat
deriving DecidableEq

/-- The `Lyrics` struct of the tag library, as constructed in `add_lyrics`
(lib.rs 131-140): language code, description and text. -/
structure Lyrics where
  lang : String
  description : String
  text : String
deriving DecidableEq

/-- Frame content type classes (spec §3): plain text, link/URL,
unsynchronised lyrics, attached picture. -/
inductive Content where
  | text (s : String)
  | link (url : String)
  | lyrics (l : Lyrics)
  | picture (p : Picture)
deriving DecidableEq

/-- One metadata frame: a 4-character identifier plus a content payload (spec §3). -/
structure Frame where
  id : String
  content : Content
deriving DecidableEq

/-- The tag container: an ordered sequence of frames (spec §3). -/
structure Tag where
  frames : List Frame
deriving DecidableEq

/-- A fresh empty tag (`Tag::new()`). -/
def Tag.empty : Tag := ⟨[]⟩

/-- Modelled from the spec: Tag Container `get(identifier)` (spec §4.3) —
"returns the first matching frame (insertion order), `None` if absent". -/
def Tag.get (t : Tag) (id : String) : Option Frame :=
  (t.frames.filter (fun f => f.id == id)).head?

/-- Modelled from the spec: Tag Container `get_all(identifier)` (spec §4.3) —
all frames with that identifier, in insertion order. -/
def Tag.getAll (t : Tag) (id : String) : List Frame :=
  t.frames.filter (fun f => f.id == id)

/-- Replace the first frame whose identifier matches, preserving its position;
append at the end when no frame matches (spec §4.3, `set_text`). -/
def setFrames : List Frame → Frame → List Frame
  | [], f => [f]
  | g :: gs, f => if g.id == f.id then f :: gs else g :: setFrames gs f

/-- Modelled from the spec: Tag Container `set_text(identifier, value)` (spec §4.3) —
"replaces the first frame with that identifier if present (preserving its
position), else appends a new one". -/
def Tag.setText (t : Tag) (id text : String) : Tag :=
  ⟨setFrames t.frames ⟨id, .text text⟩⟩

/-- Modelled from the spec: Tag Container `remove(identifier)` (spec §4.3) —
"removes all frames with that identifier; returns whether anything was removed". -/
def Tag.remove (t : Tag) (id : String) : Tag × Bool :=
  (⟨t.frames.filter (fun f => !(f.id == id))⟩, t.frames.any (fun f => f.id == id))

/-- Modelled from the spec: Tag Container `add_frame(frame)` (spec §4.3) —
"always appends, even if an identifier of the same kind already exists". -/
def Tag.addFrame (t : Tag) (f : Frame) : Tag :=
  ⟨t.frames ++ [f]⟩

/-- Text payload of a frame content, the model of the library's
`content().text()` accessor. -/
def Content.textVal : Content → Option String
  | .text s => some s
  | _ => none

/-- Text of the first frame with the given identifier (the read side of the
accessor sugar, spec §4.3: "named-identifier sugar over `get`/`set_text`"). -/
def Tag.getText (t : Tag) (id : String) : Option String :=
  (t.get id).bind (fun f => f.content.textVal)

/-- Modelled from the spec: `set_title` accessor sugar, identifier `TIT2` (spec §6). -/
def Tag.setTitle (t : Tag) (v : String) : Tag := t.setText "TIT2" v

/-- Modelled from the spec: `set_artist` accessor sugar, identifier `TPE1` (spec §6). -/
def Tag.setArtist (t : Tag) (v : String) : Tag := t.setText "TPE1" v

/-- Modelled from the spec: `artist` read accessor — "read returns the joined
string verbatim" (spec §4.3), i.e. the text of the first `TPE1` frame, never re-split. -/
def Tag.artist (t : Tag) : Option String := t.getText "TPE1"

/-- Modelled from the spec: `set_album` accessor sugar, identifier `TALB` (spec §6). -/
def Tag.setAlbum (t : Tag) (v : String) : Tag := t.setText "TALB" v

/-- Modelled from the spec: `set_year` accessor sugar, identifier `TYER` (spec §6
lists `TYER`/`TDRC` for year/date); the year number is stored as its decimal text. -/
def Tag.setYear (t : Tag) (y : Int) : Tag := t.setText "TYER" (toString y)

/-- Modelled from the spec: `set_genre` accessor sugar, identifier `TCON` (spec §6). -/
def Tag.setGenre (t : Tag) (v : String) : Tag := t.setText "TCON" v

/-- Modelled from the spec: `set_track` accessor sugar, identifier `TRCK` (spec §6). -/
def Tag.setTrack (t : Tag) (n : Nat) : Tag := t.setText "TRCK" (toString n)

/-- Modelled from the spec: `set_disc` accessor sugar, identifier `TPOS`
(spec §6: "`TPOS` disc/season"). -/
def Tag.setDisc (t : Tag) (n : Nat) : Tag := t.setText "TPOS" (toString n)

/-- Modelled from the spec: `set_date_recorded` accessor sugar, identifier `TDRC`
(spec §6); the already-validated timestamp string is stored as text. -/
def Tag.setDateRecorded (t : Tag) (ts : String) : Tag := t.setText "TDRC" ts

/-- Modelled from the spec: `set_album_artist` accessor sugar, identifier `TPE2` (spec §6). -/
def Tag.setAlbumArtist (t : Tag) (v : String) : Tag := t.setText "TPE2" v

/-- Modelled from the spec: `remove_title` removes all `TIT2` frames. -/
def Tag.removeTitle (t : Tag) : Tag := (t.remove "TIT2").1

/-- Modelled from the spec: `remove_artist` removes all `TPE1` frames. -/
def Tag.removeArtist (t : Tag) : Tag := (t.remove "TPE1").1

/-- Modelled from the spec: `remove_album` removes all `TALB` frames. -/
def Tag.removeAlbum (t : Tag) : Tag := (t.remove "TALB").1

/-- Modelled from the spec: `remove_year` removes all `TYER` frames. -/
def Tag.removeYear (t : Tag) : Tag := (t.remove "TYER").1

/-- Modelled from the spec: `remove_genre` removes all `TCON` frames. -/
def Tag.removeGenre (t : Tag) : Tag := (t.remove "TCON").1

/-- Modelled from the spec: `remove_track` removes all `TRCK` frames. -/
def Tag.removeTrack (t : Tag) : Tag := (t.remove "TRCK").1

/-- Modelled from the spec: `remove_disc` removes all `TPOS` frames. -/
def Tag.removeDisc (t : Tag) : Tag := (t.remove "TPOS").1

/-- Modelled from the spec: `remove_date_recorded` removes all `TDRC` frames. -/
def Tag.removeDateRecorded (t : Tag) : Tag := (t.remove "TDRC").1

/-- Modelled from the spec: `remove_album_artist` removes all `TPE2` frames. -/
def Tag.removeAlbumArtist (t : Tag) : Tag := (t.remove "TPE2").1

/-- Modelled from the spec: `remove_all_pictures` removes all `APIC` frames
(spec §6: "`APIC` picture"). -/
def Tag.removeAllPictures (t : Tag) : Tag := (t.remove "APIC").1

/-- ASCII lowercasing; agrees with Rust `str::to_lowercase` on ASCII input
(the non-ASCII cases never produce any of the names or extensions matched below). -/
def asciiLower (s : String) : String := ⟨s.data.map Char.toLower⟩

/-- Modelled from the spec: the external date parser accepts the formats
YYYY, YYYY-MM and YYYY-MM-DD (lib.rs line 88: "acepta YYYY, YYYY-MM, YYYY-MM-DD"). -/
def validTimestamp (s : String) : Bool :=
  match s.toList with
  | [a, b, c, d] => [a, b, c, d].all Char.isDigit
  | [a, b, c, d, h1, e, f] => [a, b, c, d, e, f].all Char.isDigit && h1 == '-'
  | [a, b, c, d, h1, e, f, h2, g, i] =>
      [a, b, c, d, e, f, g, i].all Char.isDigit && h1 == '-' && h2 == '-'
  | _ => false

/-- Modelled from the spec: `date.parse::<Timestamp>()` — succeeds exactly on
valid timestamp strings, which are then stored verbatim. -/
def parseTimestamp (s : String) : Option String :=
  if validTimestamp s then some s else none

/-- Step of `apply_metadata` (lib.rs 51-54): set the title if given. -/
def applyTitle (title : Option String) (s : Tag × Bool) : Tag × Bool :=
  match title with
  | some v => (s.1.setTitle v, true)
  | none => s

/-- Step of `apply_metadata` (lib.rs 56-60): join a non-empty artist list with
`"; "` and store it as the single artist string. -/
def applyArtists (artists : List String) (s : Tag × Bool) : Tag × Bool :=
  if artists.isEmpty then s
  else (s.1.setArtist (String.intercalate "; " artists), true)

/-- Step of `apply_metadata` (lib.rs 62-65): set the album if given. -/
def applyAlbum (album : Option String) (s : Tag × Bool) : Tag × Bool :=
  match album with
  | some v => (s.1.setAlbum v, true)
  | none => s

/-- Step of `apply_metadata` (lib.rs 67-70): set the year if given. -/
def applyYear (year : Option Int) (s : Tag × Bool) : Tag × Bool :=
  match year with
  | some y => (s.1.setYear y, true)
  | none => s

/-- Step of `apply_metadata` (lib.rs 72-75): set the genre if given. -/
def applyGenre (genre : Option String) (s : Tag × Bool) : Tag × Bool :=
  match genre with
  | some v => (s.1.setGenre v, true)
  | none => s

/-- Step of `apply_metadata` (lib.rs 77-80): set the track number if given. -/
def applyTrack (track : Option Nat) (s : Tag × Bool) : Tag × Bool :=
  match track with
  | some n => (s.1.setTrack n, true)
  | none => s

/-- Step of `apply_metadata` (lib.rs 82-85): set the disc/season number if given. -/
def applySeason (season : Option Nat) (s : Tag × Bool) : Tag × Bool :=
  match season with
  | some n => (s.1.setDisc n, true)
  | none => s

/-- Step of `apply_metadata` (lib.rs 87-93): set the recording date only when
the given string parses as a timestamp; an unparseable date changes nothing. -/
def applyDate (date : Option String) (s : Tag × Bool) : Tag × Bool :=
  match date with
  | some d =>
    match parseTimestamp d with
    | some ts => (s.1.setDateRecorded ts, true)
    | none => s
  | none => s

/-- Step of `apply_metadata` (lib.rs 95-98): store copyright under `TCOP` if given. -/
def applyCopyright (c : Option String) (s : Tag × Bool) : Tag × Bool :=
  match c with
  | some v => (s.1.setText "TCOP" v, true)
  | none => s

/-- Step of `apply_metadata` (lib.rs 100-103): store composer under `TCOM` if given. -/
def applyComposer (c : Option String) (s : Tag × Bool) : Tag × Bool :=
  match c with
  | some v => (s.1.setText "TCOM" v, true)
  | none => s

/-- Step of `apply_metadata` (lib.rs 105-108): store subtitle under `TIT3` if given. -/
def applySubtitle (c : Option String) (s : Tag × Bool) : Tag × Bool :=
  match c with
  | some v => (s.1.setText "TIT3" v, true)
  | none => s

/-- Step of `apply_metadata` (lib.rs 110-113): store original artist under `TOPE` if given. -/
def applyOriginalArtist (c : Option String) (s : Tag × Bool) : Tag × Bool :=
  match c with
  | some v => (s.1.setText "TOPE" v, true)
  | none => s

/-- Step of `apply_metadata` (lib.rs 115-118): set album artist (`TPE2`) if given. -/
def applyAlbumArtist (c : Option String) (s : Tag × Bool) : Tag × Bool :=
  match c with
  | some v => (s.1.setAlbumArtist v, true)
  | none => s

/-- `apply_metadata` (lib.rs 33-121): applies each given optional field in the
source's order, returning the new tag together with the `changed` flag
(`true` iff at least one change was applied). -/
def apply_metadata (tag : Tag) (title : Option String) (artists : List String)
    (album : Option String) (year : Option Int) (genre : Option String)
    (track : Option Nat) (season : Option Nat) (date : Option String)
    (copyright : Option String) (composer : Option String)
    (subtitle : Option String) (original_artist : Option String)
    (album_artist : Option String) : Tag × Bool :=
  applyAlbumArtist album_artist
    (applyOriginalArtist original_artist
      (applySubtitle subtitle
        (applyComposer composer
          (applyCopyright copyright
            (applyDate date
              (applySeason season
                (applyTrack track
                  (applyGenre genre
                    (applyYear year
                      (applyAlbum album
                        (applyArtists artists
                          (applyTitle title (tag, false)))))))))))))

/-- `add_lyrics` (lib.rs 131-140): appends a `USLT` frame with language `"spa"`,
empty description and the given text; always returns `true`. -/
def add_lyrics (tag : Tag) (text : String) : Tag × Bool :=
  (tag.addFrame ⟨"USLT", .lyrics ⟨"spa", "", text⟩⟩, true)

/-- `add_url` (lib.rs 147-151): appends a `WOAR` link frame; always returns `true`. -/
def add_url (tag : Tag) (url : String) : Tag × Bool :=
  (tag.addFrame ⟨"WOAR", .link url⟩, true)

/-- `add_apple_metadata` (lib.rs 165-199): `TCMP` = `"1"` when `compilation`,
then the three sort-order fields `TSOA`, `TSOP`, `TSOT`. -/
def add_apple_metadata (tag : Tag) (compilation : Bool)
    (album_sort artist_sort title_sort : Option String) : Tag × Bool :=
  let s0 : Tag × Bool := (tag, false)
  let s1 : Tag × Bool := if compilation then (s0.1.setText "TCMP" "1", true) else s0
  let s2 : Tag × Bool :=
    match album_sort with
    | some v => (s1.1.setText "TSOA" v, true)
    | none => s1
  let s3 : Tag × Bool :=
    match artist_sort with
    | some v => (s2.1.setText "TSOP" v, true)
    | none => s2
  match title_sort with
  | some v => (s3.1.setText "TSOT" v, true)
  | none => s3

/-- `create_picture_frame` (lib.rs 205-212): picture with the given MIME type,
picture type CoverFront, description `"Cover"` and the given data. -/
def create_picture_frame (data : List Nat) (mime_type : String) : Picture :=
  { mime_type := mime_type
    picture_type := .CoverFront
    description := "Cover"
    data := data }

/-- `detect_mime_type` (lib.rs 225-238), embedded over the file-name extension
already extracted by `Path::extension().and_then(to_str)` (`none` when the host
cannot determine an extension): lowercases the extension and maps
jpg/jpeg/png/webp to their MIME types, rejecting everything else. -/
def detect_mime_type (ext : Option String) : Except String String :=
  match ext with
  | none => .error "No se pudo determinar la extensión del archivo"
  | some e =>
    let l := asciiLower e
    if l = "jpg" ∨ l = "jpeg" then .ok "image/jpeg"
    else if l = "png" then .ok "image/png"
    else if l = "webp" then .ok "image/webp"
    else .error ("Formato de imagen no soportado: ." ++ l)

/-- `add_cover_art` (lib.rs 249-255): detects the MIME type from the cover
file's extension and appends the picture frame, or propagates the error. -/
def add_cover_art (tag : Tag) (coverExt : Option String) (coverData : List Nat) :
    Except String Tag :=
  match detect_mime_type coverExt with
  | .error e => .error (e ++ " (soportados: jpg, png, webp)")
  | .ok mime =>
      .ok (tag.addFrame ⟨"APIC", .picture (create_picture_frame coverData mime)⟩)

/-- One iteration of the loop in `remove_tags` (lib.rs 288-374): dispatch on the
lowercased tag name; every recognized name performs its removal and yields
`true`, an unknown name yields `false`. -/
def removeOneTag (t : Tag) (name : String) : Tag × Bool :=
  match asciiLower name with
  | "title" | "título" => (t.removeTitle, true)
  | "artist" | "artista" => (t.removeArtist, true)
  | "album" | "álbum" => (t.removeAlbum, true)
  | "year" | "año" => (t.removeYear, true)
  | "genre" | "género" | "genero" => (t.removeGenre, true)
  | "track" | "pista" => (t.removeTrack, true)
  | "season" | "temporada" => (t.removeDisc, true)
  | "date" | "fecha" => (t.removeDateRecorded, true)
  | "copyright" => ((t.remove "TCOP").1, true)
  | "composer" | "compositor" => ((t.remove "TCOM").1, true)
  | "subtitle" | "subtítulo" | "subtitulo" | "description" | "descripción" | "descripcion" =>
      ((t.remove "TIT3").1, true)
  | "original_artist" | "original-artist" | "artista_original" | "artista-original" =>
      ((t.remove "TOPE").1, true)
  | "album_artist" | "album-artist" | "artista_album" | "artista-album" =>
      (t.removeAlbumArtist, true)
  | "cover" | "carátula" | "caratula" => (t.removeAllPictures, true)
  | "lyrics" | "letra" => ((t.remove "USLT").1, true)
  | "url" => ((t.remove "WOAR").1, true)
  | "compilation" | "compilación" | "compilacion" => ((t.remove "TCMP").1, true)
  | "album_sort" | "album-sort" | "orden_album" | "orden-album" =>
      ((t.remove "TSOA").1, true)
  | "artist_sort" | "artist-sort" | "orden_artista" | "orden-artista" =>
      ((t.remove "TSOP").1, true)
  | "title_sort" | "title-sort" | "orden_titulo" | "orden-titulo" =>
      ((t.remove "TSOT").1, true)
  | _ => (t, false)

/-- `remove_tags` (lib.rs 285-383): processes each requested name in order and
returns whether any iteration yielded `true`. -/
def remove_tags (t : Tag) (names : List String) : Tag × Bool :=
  names.foldl
    (fun acc n =>
      let r := removeOneTag acc.1 n
      (r.1, acc.2 || r.2))
    (t, false)

/-- Whether a tag name is recognized by `remove_tags` (the names listed in
lib.rs 290-369, matched on the lowercased name). -/
def isRecognizedTagName (name : String) : Bool :=
  match asciiLower name with
  | "title" | "título" => true
  | "artist" | "artista" => true
  | "album" | "álbum" => true
  | "year" | "año" => true
  | "genre" | "género" | "genero" => true
  | "track" | "pista" => true
  | "season" | "temporada" => true
  | "date" | "fecha" => true
  | "copyright" => true
  | "composer" | "compositor" => true
  | "subtitle" | "subtítulo" | "subtitulo" | "description" | "descripción" | "descripcion" => true
  | "original_artist" | "original-artist" | "artista_original" | "artista-original" => true
  | "album_artist" | "album-artist" | "artista_album" | "artista-album" => true
  | "cover" | "carátula" | "caratula" => true
  | "lyrics" | "letra" => true
  | "url" => true
  | "compilation" | "compilación" | "compilacion" => true
  | "album_sort" | "album-sort" | "orden_album" | "orden-album" => true
  | "artist_sort" | "artist-sort" | "orden_artista" | "orden-artista" => true
  | "title_sort" | "title-sort" | "orden_titulo" | "orden-titulo" => true
  | _ => false

/-- Error taxonomy of the tag reader (spec §7). -/
inductive ReadError where
  | NotID3
  | MalformedFrame
  | UnsupportedVersion
  | IoFailure
deriving DecidableEq

/-- Outcome of the tag-acquisition step of `main`. -/
inductive TagSetup where
  | useTag (t : Tag)
  | exitSuccess (code : Nat)
deriving DecidableEq

/-- The tag-read match of `main` (main.rs 345-360): on a successful read the tag
is used; on a read error, show mode exits with status 0 ("no tags found") while
edit mode continues with a fresh empty tag. -/
def resolveInitialTag (readResult : Except ReadError Tag) (showMode : Bool) : TagSetup :=
  match readResult with
  | .ok t => .useTag t
  | .error _ => if showMode then .exitSuccess 0 else .useTag Tag.empty

/-- Modelled from the spec: the synchsafe integer encoder (spec §4.1, absent from
this repository's source) — four bytes, each holding 7 significant bits, most
significant group first; rejects values above the 28-bit range. -/
def synchsafeEncode (v : Nat) : Except String (List Nat) :=
  if v > 0x0FFFFFFF then .error "value exceeds 28-bit synchsafe range"
  else .ok [v / 2 ^ 21 % 128, v / 2 ^ 14 % 128, v / 2 ^ 7 % 128, v % 128]

/-- Modelled from the spec: the synchsafe integer decoder (spec §4.1, absent from
this repository's source) — exact inverse of the encoder; rejects any input
byte with bit 7 set. -/
def synchsafeDecode (bs : List Nat) : Except String Nat :=
  match bs with
  | [b0, b1, b2, b3] =>
    if b0 ≥ 128 || b1 ≥ 128 || b2 ≥ 128 || b3 ≥ 128 then
      .error "non-synchsafe byte: bit 7 set"
    else .ok (((b0 * 128 + b1) * 128 + b2) * 128 + b3)
  | _ => .error "expected exactly 4 bytes"

/-! ## Helper lemmas about the tag container -/

theorem filter_setFrames_ne (l : List Frame) (f : Frame) (id : String) (h : f.id ≠ id) :
    (setFrames l f).filter (fun g => g.id == id) = l.filter (fun g => g.id == id) := by
  induction l with
  | nil => simp [setFrames, h]
  | cons g gs ih =>
    by_cases hg : g.id = f.id
    · simp [setFrames, hg, h]
    · simp only [setFrames]
      rw [if_neg (by simpa using fun hc => hg hc)]
      simp [List.filter_cons, ih]

theorem head_filter_setFrames (l : List Frame) (f : Frame) :
    ((setFrames l f).filter (fun g => g.id == f.id)).head? = some f := by
  induction l with
  | nil => simp [setFrames]
  | cons g gs ih =>
    by_cases hg : g.id = f.id
    · simp [setFrames, hg]
    · simp only [setFrames]
      rw [if_neg (by simpa using fun hc => hg hc)]
      simp [List.filter_cons, hg, ih]

theorem Tag.getText_setText_self (t : Tag) (id v : String) :
    (t.setText id v).getText id = some v := by
  simp only [Tag.getText, Tag.get, Tag.setText]
  rw [head_filter_setFrames t.frames ⟨id, .text v⟩]
  rfl

theorem Tag.getText_setText_ne (t : Tag) (id id' v : String) (h : id ≠ id') :
    (t.setText id v).getText id' = t.getText id' := by
  simp only [Tag.getText, Tag.get, Tag.setText]
  rw [filter_setFrames_ne t.frames ⟨id, .text v⟩ id' h]

theorem Tag.getAll_addFrame (t : Tag) (f : Frame) (id : String) :
    (t.addFrame f).getAll id = t.getAll id ++ if f.id = id then [f] else [] := by
  by_cases h : f.id = id <;> simp [Tag.addFrame, Tag.getAll, List.filter_append, h]

theorem Tag.get_eq_head_getAll (t : Tag) (id : String) :
    t.get id = (t.getAll id).head? := rfl

theorem Tag.getAll_remove_self (t : Tag) (id : String) :
    (t.remove id).1.getAll id = [] := by
  simp [Tag.remove, Tag.getAll, List.filter_filter]

/-! ## Helper lemmas about the `apply_metadata` steps -/

theorem artist_applyTitle (a : Option String) (s : Tag × Bool) :
    (applyTitle a s).1.artist = s.1.artist := by
  cases a with
  | none => rfl
  | some v =>
    simpa [applyTitle, Tag.artist, Tag.setTitle] using
      Tag.getText_setText_ne s.1 "TIT2" "TPE1" v (by decide)

theorem artist_applyAlbum (a : Option String) (s : Tag × Bool) :
    (applyAlbum a s).1.artist = s.1.artist := by
  cases a with
  | none => rfl
  | some v =>
    simpa [applyAlbum, Tag.artist, Tag.setAlbum] using
      Tag.getText_setText_ne s.1 "TALB" "TPE1" v (by decide)

theorem artist_applyYear (a : Option Int) (s : Tag × Bool) :
    (applyYear a s).1.artist = s.1.artist := by
  cases a with
  | none => rfl
  | some v =>
    simpa [applyYear, Tag.artist, Tag.setYear] using
      Tag.getText_setText_ne s.1 "TYER" "TPE1" (toString v) (by decide)

theorem artist_applyGenre (a : Option String) (s : Tag × Bool) :
    (applyGenre a s).1.artist = s.1.artist := by
  cases a with
  | none => rfl
  | some v =>
    simpa [applyGenre, Tag.artist, Tag.setGenre] using
      Tag.getText_setText_ne s.1 "TCON" "TPE1" v (by decide)

theorem artist_applyTrack (a : Option Nat) (s : Tag × Bool) :
    (applyTrack a s).1.artist = s.1.artist := by
  cases a with
  | none => rfl
  | some v =>
    simpa [applyTrack, Tag.artist, Tag.setTrack] using
      Tag.getText_setText_ne s.1 "TRCK" "TPE1" (toString v) (by decide)

theorem artist_applySeason (a : Option Nat) (s : Tag × Bool) :
    (applySeason a s).1.artist = s.1.artist := by
  cases a with
  | none => rfl
  | some v =>
    simpa [applySeason, Tag.artist, Tag.setDisc] using
      Tag.getText_setText_ne s.1 "TPOS" "TPE1" (toString v) (by decide)

theorem artist_applyDate (a : Option String) (s : Tag × Bool) :
    (applyDate a s).1.artist = s.1.artist := by
  cases a with
  | none => rfl
  | some x =>
    cases hp : parseTimestamp x with
    | none => simp [applyDate, hp]
    | some ts =>
      simpa [applyDate, hp, Tag.setDateRecorded] using
        Tag.getText_setText_ne s.1 "TDRC" "TPE1" ts (by decide)

theorem artist_applyCopyright (a : Option String) (s : Tag × Bool) :
    (applyCopyright a s).1.artist = s.1.artist := by
  cases a with
  | none => rfl
  | some v =>
    simpa [applyCopyright, Tag.artist] using
      Tag.getText_setText_ne s.1 "TCOP" "TPE1" v (by decide)

theorem artist_applyComposer (a : Option String) (s : Tag × Bool) :
    (applyComposer a s).1.artist = s.1.artist := by
  cases a with
  | none => rfl
  | some v =>
    simpa [applyComposer, Tag.artist] using
      Tag.getText_setText_ne s.1 "TCOM" "TPE1" v (by decide)

theorem artist_applySubtitle (a : Option String) (s : Tag × Bool) :
    (applySubtitle a s).1.artist = s.1.artist := by
  cases a with
  | none => rfl
  | some v =>
    simpa [applySubtitle, Tag.artist] using
      Tag.getText_setText_ne s.1 "TIT3" "TPE1" v (by decide)

theorem artist_applyOriginalArtist (a : Option String) (s : Tag × Bool) :
    (applyOriginalArtist a s).1.artist = s.1.artist := by
  cases a with
  | none => rfl
  | some v =>
    simpa [applyOriginalArtist, Tag.artist] using
      Tag.getText_setText_ne s.1 "TOPE" "TPE1" v (by decide)

theorem artist_applyAlbumArtist (a : Option String) (s : Tag × Bool) :
    (applyAlbumArtist a s).1.artist = s.1.artist := by
  cases a with
  | none => rfl
  | some v =>
    simpa [applyAlbumArtist, Tag.artist, Tag.setAlbumArtist] using
      Tag.getText_setText_ne s.1 "TPE2" "TPE1" v (by decide)

theorem applyTitle_snd (a : Option String) (s : Tag × Bool) :
    (applyTitle a s).2 = (s.2 || a.isSome) := by
  cases a <;> simp [applyTitle]

theorem applyArtists_snd (l : List String) (s : Tag × Bool) :
    (applyArtists l s).2 = (s.2 || !l.isEmpty) := by
  by_cases h : l.isEmpty <;> simp [applyArtists, h]

theorem applyAlbum_snd (a : Option String) (s : Tag × Bool) :
    (applyAlbum a s).2 = (s.2 || a.isSome) := by
  cases a <;> simp [applyAlbum]

theorem applyYear_snd (a : Option Int) (s : Tag × Bool) :
    (applyYear a s).2 = (s.2 || a.isSome) := by
  cases a <;> simp [applyYear]

theorem applyGenre_snd (a : Option String) (s : Tag × Bool) :
    (applyGenre a s).2 = (s.2 || a.isSome) := by
  cases a <;> simp [applyGenre]

theorem applyTrack_snd (a : Option Nat) (s : Tag × Bool) :
    (applyTrack a s).2 = (s.2 || a.isSome) := by
  cases a <;> simp [applyTrack]

theorem applySeason_snd (a : Option Nat) (s : Tag × Bool) :
    (applySeason a s).2 = (s.2 || a.isSome) := by
  cases a <;> simp [applySeason]

theorem applyDate_snd (a : Option String) (s : Tag × Bool) :
    (applyDate a s).2 = (s.2 || (a.bind parseTimestamp).isSome) := by
  cases a with
  | none => simp [applyDate]
  | some x => cases hp : parseTimestamp x <;> simp [applyDate, hp]

theorem applyCopyright_snd (a : Option String) (s : Tag × Bool) :
    (applyCopyright a s).2 = (s.2 || a.isSome) := by
  cases a <;> simp [applyCopyright]

theorem applyComposer_snd (a : Option String) (s : Tag × Bool) :
    (applyComposer a s).2 = (s.2 || a.isSome) := by
  cases a <;> simp [applyComposer]

theorem applySubtitle_snd (a : Option String) (s : Tag × Bool) :
    (applySubtitle a s).2 = (s.2 || a.isSome) := by
  cases a <;> simp [applySubtitle]

theorem applyOriginalArtist_snd (a : Option String) (s : Tag × Bool) :
    (applyOriginalArtist a s).2 = (s.2 || a.isSome) := by
  cases a <;> simp [applyOriginalArtist]

theorem applyAlbumArtist_snd (a : Option String) (s : Tag × Bool) :
    (applyAlbumArtist a s).2 = (s.2 || a.isSome) := by
  cases a <;> simp [applyAlbumArtist]

theorem applyArtists_nil (s : Tag × Bool) : applyArtists [] s = s := by
  simp [applyArtists]

theorem applyDate_noparse (x : String) (s : Tag × Bool) (hp : parseTimestamp x = none) :
    applyDate (some x) s = s := by
  simp [applyDate, hp]

/-! ## Helper lemmas about `remove_tags` -/

set_option maxHeartbeats 1000000 in
theorem removeOneTag_snd (t : Tag) (n : String) :
    (removeOneTag t n).2 = isRecognizedTagName n := by
  unfold removeOneTag isRecognizedTagName
  generalize asciiLower n = k
  split <;> rfl

theorem remove_tags_foldl_snd (names : List String) (t : Tag) (b : Bool) :
    (names.foldl
      (fun acc n =>
        let r := removeOneTag acc.1 n
        (r.1, acc.2 || r.2))
      (t, b)).2 = (b || names.any isRecognizedTagName) := by
  induction names generalizing t b with
  | nil => simp
  | cons n ns ih =>
    rw [List.foldl_cons]
    have hstep := ih (removeOneTag t n).1 (b || (removeOneTag t n).2)
    rw [show (let r := removeOneTag (t, b).1 n
          ((r.1, (t, b).2 || r.2) : Tag × Bool))
        = ((removeOneTag t n).1, b || (removeOneTag t n).2) from rfl, hstep,
      removeOneTag_snd, Bool.or_assoc, List.any_cons]

theorem apply_metadata_snd (tag : Tag) (title : Option String) (artists : List String)
    (album : Option String) (year : Option Int) (genre : Option String)
    (track : Option Nat) (season : Option Nat) (date : Option String)
    (copyright : Option String) (composer : Option String) (subtitle : Option String)
    (original_artist : Option String) (album_artist : Option String) :
    (apply_metadata tag title artists album year genre track season date copyright
        composer subtitle original_artist album_artist).2
      = (title.isSome || !artists.isEmpty || album.isSome || year.isSome ||
         genre.isSome || track.isSome || season.isSome ||
         (date.bind parseTimestamp).isSome || copyright.isSome || composer.isSome ||
         subtitle.isSome || original_artist.isSome || album_artist.isSome) := by
  unfold apply_metadata
  rw [applyAlbumArtist_snd, applyOriginalArtist_snd, applySubtitle_snd,
    applyComposer_snd, applyCopyright_snd, applyDate_snd, applySeason_snd,
    applyTrack_snd, applyGenre_snd, applyYear_snd, applyAlbum_snd,
    applyArtists_snd, applyTitle_snd]
  simp [Bool.or_assoc]

/-! ## Claim theorems -/

/-- C1: For every non-empty list of artist strings passed to `apply_metadata`,
the stored artist value is the single string obtained by joining the list with
`"; "` in list order, and reading the artist back returns that joined string
verbatim, never re-split into parts. -/
theorem apply_metadata_artists_joined (tag : Tag) (title : Option String)
    (artists : List String) (album : Option String) (year : Option Int)
    (genre : Option String) (track : Option Nat) (season : Option Nat)
    (date : Option String) (copyright : Option String) (composer : Option String)
    (subtitle : Option String) (original_artist : Option String)
    (album_artist : Option String) (h : artists ≠ []) :
    (apply_metadata tag title artists album year genre track season date copyright
        composer subtitle original_artist album_artist).1.artist
      = some (String.intercalate "; " artists) := by
  unfold apply_metadata
  rw [artist_applyAlbumArtist, artist_applyOriginalArtist, artist_applySubtitle,
    artist_applyComposer, artist_applyCopyright, artist_applyDate, artist_applySeason,
    artist_applyTrack, artist_applyGenre, artist_applyYear, artist_applyAlbum]
  have hne : artists.isEmpty = false := by
    cases artists with
    | nil => exact absurd rfl h
    | cons a as => rfl
  simp [applyArtists, hne, Tag.artist, Tag.setArtist, Tag.getText_setText_self]

/-- Witness for C1: two concrete artists are joined with `"; "`. -/
theorem apply_metadata_artists_joined_witness :
    (apply_metadata Tag.empty none ["Artist 1", "Artist 2"] none none none none none
        none none none none none none).1.artist = some "Artist 1; Artist 2" :=
  (apply_metadata_artists_joined Tag.empty none ["Artist 1", "Artist 2"] none none
    none none none none none none none none none (by decide)).trans (by decide)

/-- C4: A read failure such as `NotID3` (no tag present) is the normal signal
for "file has no tag yet": in edit mode the program continues with a fresh
empty tag instead of aborting, and in show mode it exits successfully with
status 0. -/
theorem notid3_is_recoverable :
    resolveInitialTag (.error .NotID3) false = .useTag Tag.empty ∧
    resolveInitialTag (.error .NotID3) true = .exitSuccess 0 :=
  ⟨rfl, rfl⟩

/-- C5: Every picture frame this system writes has picture type CoverFront and
description "Cover": `create_picture_frame` always produces such a picture, and
a successful `add_cover_art` appends exactly one CoverFront picture frame. -/
theorem pictures_always_CoverFront (data d : List Nat) (mime : String)
    (t t' : Tag) (ext : Option String) (h : add_cover_art t ext d = .ok t') :
    (create_picture_frame data mime).picture_type = .CoverFront ∧
    (create_picture_frame data mime).description = "Cover" ∧
    ∃ m, t'.frames = t.frames ++ [⟨"APIC", .picture ⟨m, .CoverFront, "Cover", d⟩⟩] := by
  refine ⟨rfl, rfl, ?_⟩
  unfold add_cover_art at h
  cases hd : detect_mime_type ext with
  | error e => rw [hd] at h; exact absurd h (by simp)
  | ok m =>
    rw [hd] at h
    simp only [Except.ok.injEq] at h
    exact ⟨m, by rw [← h]; rfl⟩

/-- Witness for C5: adding a concrete jpg cover to an empty tag. -/
theorem pictures_always_CoverFront_witness :
    (create_picture_frame [0] "image/png").picture_type = .CoverFront ∧
    (create_picture_frame [0] "image/png").description = "Cover" ∧
    ∃ m, (Tag.mk [⟨"APIC", .picture ⟨"image/jpeg", .CoverFront, "Cover", [1]⟩⟩]).frames
        = Tag.empty.frames ++ [⟨"APIC", .picture ⟨m, .CoverFront, "Cover", [1]⟩⟩] :=
  pictures_always_CoverFront [0] [1] "image/png" Tag.empty
    ⟨[⟨"APIC", .picture ⟨"image/jpeg", .CoverFront, "Cover", [1]⟩⟩]⟩ (some "jpg") rfl

/-- C6: `add_lyrics` appends a `USLT` frame with language exactly `"spa"`, empty
description, and the input text preserved exactly (embedded newlines included),
and it returns `true`. -/
theorem add_lyrics_spa (t : Tag) (txt : String) :
    (add_lyrics t txt).2 = true ∧
    (add_lyrics t txt).1.frames = t.frames ++ [⟨"USLT", .lyrics ⟨"spa", "", txt⟩⟩] ∧
    (add_lyrics t txt).1.getAll "USLT"
      = t.getAll "USLT" ++ [⟨"USLT", .lyrics ⟨"spa", "", txt⟩⟩] := by
  refine ⟨rfl, rfl, ?_⟩
  rw [show (add_lyrics t txt).1 = t.addFrame ⟨"USLT", .lyrics ⟨"spa", "", txt⟩⟩ from rfl,
    Tag.getAll_addFrame]
  simp

/-- C7: The accessor layer's identifier map: copyright is stored under `TCOP`,
composer under `TCOM`, subtitle under `TIT3`, original artist under `TOPE`,
album sort under `TSOA`, artist sort under `TSOP`, title sort under `TSOT`,
and the compilation flag under `TCMP` with text `"1"`, written only when the
compilation argument is true; each setter stores the given string unchanged. -/
theorem accessor_identifier_map (t : Tag) (s : String) :
    (apply_metadata t none [] none none none none none none (some s) none none none
        none).1.getText "TCOP" = some s ∧
    (apply_metadata t none [] none none none none none none none (some s) none none
        none).1.getText "TCOM" = some s ∧
    (apply_metadata t none [] none none none none none none none none (some s) none
        none).1.getText "TIT3" = some s ∧
    (apply_metadata t none [] none none none none none none none none none (some s)
        none).1.getText "TOPE" = some s ∧
    (add_apple_metadata t false (some s) none none).1.getText "TSOA" = some s ∧
    (add_apple_metadata t false none (some s) none).1.getText "TSOP" = some s ∧
    (add_apple_metadata t false none none (some s)).1.getText "TSOT" = some s ∧
    (add_apple_metadata t true none none none).1.getText "TCMP" = some "1" ∧
    (add_apple_metadata t false none none none).1 = t := by
  refine ⟨?_, ?_, ?_, ?_, ?_, ?_, ?_, ?_, rfl⟩ <;>
    simp [apply_metadata, add_apple_metadata, applyTitle, applyArtists, applyAlbum,
      applyYear, applyGenre, applyTrack, applySeason, applyDate, applyCopyright,
      applyComposer, applySubtitle, applyOriginalArtist, applyAlbumArtist,
      Tag.getText_setText_self]

/-- C2: `add_frame` always appends even when a frame of the same identifier
already exists: adding two pictures to an APIC-free tag makes `get_all "APIC"`
a two-element sequence in insertion order with `get "APIC"` returning the
first, and calling `add_cover_art`, `add_url` or `add_lyrics` twice leaves two
frames of that kind in the tag. -/
theorem add_frame_always_appends (t : Tag) (f : Frame) (p1 p2 : Picture)
    (d : List Nat) (u1 u2 l1 l2 : String) (h : t.getAll "APIC" = []) :
    (t.addFrame f).frames = t.frames ++ [f] ∧
    add_cover_art t (some "jpg") d
      = .ok (t.addFrame ⟨"APIC", .picture (create_picture_frame d "image/jpeg")⟩) ∧
    ((t.addFrame ⟨"APIC", .picture p1⟩).addFrame ⟨"APIC", .picture p2⟩).getAll "APIC"
      = [⟨"APIC", .picture p1⟩, ⟨"APIC", .picture p2⟩] ∧
    ((t.addFrame ⟨"APIC", .picture p1⟩).addFrame ⟨"APIC", .picture p2⟩).get "APIC"
      = some ⟨"APIC", .picture p1⟩ ∧
    (add_url (add_url t u1).1 u2).1.getAll "WOAR"
      = t.getAll "WOAR" ++ [⟨"WOAR", .link u1⟩, ⟨"WOAR", .link u2⟩] ∧
    (add_lyrics (add_lyrics t l1).1 l2).1.getAll "USLT"
      = t.getAll "USLT"
          ++ [⟨"USLT", .lyrics ⟨"spa", "", l1⟩⟩, ⟨"USLT", .lyrics ⟨"spa", "", l2⟩⟩] := by
  have h3 : ((t.addFrame ⟨"APIC", .picture p1⟩).addFrame ⟨"APIC", .picture p2⟩).getAll "APIC"
      = [⟨"APIC", .picture p1⟩, ⟨"APIC", .picture p2⟩] := by
    rw [Tag.getAll_addFrame, Tag.getAll_addFrame, h]
    simp
  refine ⟨rfl, rfl, h3, ?_, ?_, ?_⟩
  · rw [Tag.get_eq_head_getAll, h3]
    rfl
  · rw [show (add_url (add_url t u1).1 u2).1
        = (t.addFrame ⟨"WOAR", .link u1⟩).addFrame ⟨"WOAR", .link u2⟩ from rfl,
      Tag.getAll_addFrame, Tag.getAll_addFrame]
    simp
  · rw [show (add_lyrics (add_lyrics t l1).1 l2).1
        = (t.addFrame ⟨"USLT", .lyrics ⟨"spa", "", l1⟩⟩).addFrame
            ⟨"USLT", .lyrics ⟨"spa", "", l2⟩⟩ from rfl,
      Tag.getAll_addFrame, Tag.getAll_addFrame]
    simp

/-- Witness for C2: two concrete cover pictures on the empty tag are both kept,
in insertion order, with `get` returning the first. -/
theorem add_frame_always_appends_witness :
    ((Tag.empty.addFrame ⟨"APIC", .picture ⟨"image/png", .CoverFront, "a", [0]⟩⟩).addFrame
        ⟨"APIC", .picture ⟨"image/jpeg", .CoverFront, "b", [1]⟩⟩).getAll "APIC"
      = [⟨"APIC", .picture ⟨"image/png", .CoverFront, "a", [0]⟩⟩,
         ⟨"APIC", .picture ⟨"image/jpeg", .CoverFront, "b", [1]⟩⟩] ∧
    ((Tag.empty.addFrame ⟨"APIC", .picture ⟨"image/png", .CoverFront, "a", [0]⟩⟩).addFrame
        ⟨"APIC", .picture ⟨"image/jpeg", .CoverFront, "b", [1]⟩⟩).get "APIC"
      = some ⟨"APIC", .picture ⟨"image/png", .CoverFront, "a", [0]⟩⟩ :=
  have hw := add_frame_always_appends Tag.empty ⟨"TXXX", .text "x"⟩
    ⟨"image/png", .CoverFront, "a", [0]⟩ ⟨"image/jpeg", .CoverFront, "b", [1]⟩
    [2] "u1" "u2" "l1" "l2" rfl
  ⟨hw.2.2.1, hw.2.2.2.1⟩

/-- C3 counterexample: on an empty tag the recognized name `"title"` removes
nothing (the tag is unchanged), yet `remove_tags` still returns `true` —
refuting "returns true if and only if at least one frame was removed". -/
theorem remove_tags_true_without_removal :
    (remove_tags Tag.empty ["title"]).1 = Tag.empty ∧
    (remove_tags Tag.empty ["title"]).2 = true := ⟨rfl, rfl⟩

/-- C3 amended: removing by identifier removes all frames with that identifier,
but the boolean result of `remove_tags` reports whether at least one of the
given names is recognized, not whether any frame was actually removed. -/
theorem remove_tags_reports_recognized (t : Tag) (names : List String) :
    (remove_tags t names).2 = names.any isRecognizedTagName ∧
    (remove_tags t ["copyright"]).1.getAll "TCOP" = [] ∧
    (remove_tags t ["lyrics"]).1.getAll "USLT" = [] := by
  refine ⟨?_, ?_, ?_⟩
  · have h := remove_tags_foldl_snd names t false
    rw [Bool.false_or] at h
    exact h
  · rw [show (remove_tags t ["copyright"]).1 = (t.remove "TCOP").1 from rfl,
      Tag.getAll_remove_self]
  · rw [show (remove_tags t ["lyrics"]).1 = (t.remove "USLT").1 from rfl,
      Tag.getAll_remove_self]

/-- C8: The synchsafe integer codec (modelled from the spec; the codec lives in
the external tag library, not in this repository's source): decode∘encode is
the identity on `[0, 0x0FFFFFFF]`, encode rejects every larger value, and
decode rejects any 4-byte input in which some byte has bit 7 set. -/
theorem synchsafe_codec_spec (v w : Nat) (hv : v ≤ 0x0FFFFFFF) (hw : 0x0FFFFFFF < w) :
    synchsafeEncode v
      = .ok [v / 2 ^ 21 % 128, v / 2 ^ 14 % 128, v / 2 ^ 7 % 128, v % 128] ∧
    synchsafeDecode [v / 2 ^ 21 % 128, v / 2 ^ 14 % 128, v / 2 ^ 7 % 128, v % 128]
      = .ok v ∧
    synchsafeEncode w = .error "value exceeds 28-bit synchsafe range" ∧
    (∀ b0 b1 b2 b3 : Nat, 128 ≤ b0 ∨ 128 ≤ b1 ∨ 128 ≤ b2 ∨ 128 ≤ b3 →
      synchsafeDecode [b0, b1, b2, b3] = .error "non-synchsafe byte: bit 7 set") := by
  refine ⟨?_, ?_, ?_, ?_⟩
  · unfold synchsafeEncode
    rw [if_neg (by omega)]
  · simp only [synchsafeDecode]
    split
    · rename_i hc
      exfalso
      simp only [ge_iff_le, Bool.or_eq_true, decide_eq_true_eq] at hc
      omega
    · simp only [Except.ok.injEq]
      have e21 : (2 : ℕ) ^ 21 = 2097152 := by norm_num
      have e14 : (2 : ℕ) ^ 14 = 16384 := by norm_num
      have e7 : (2 : ℕ) ^ 7 = 128 := by norm_num
      rw [e21, e14, e7]
      omega
  · unfold synchsafeEncode
    rw [if_pos hw]
  · intro b0 b1 b2 b3 hb
    simp only [synchsafeDecode]
    split
    · rfl
    · rename_i hc
      exfalso
      simp only [ge_iff_le, Bool.or_eq_true, decide_eq_true_eq] at hc
      omega

/-- Witness for C8 at concrete inputs: 5 round-trips, `0x10000000` is rejected
by encode, and a leading byte `0xFF` is rejected by decode. -/
theorem synchsafe_codec_spec_witness :
    synchsafeEncode 5 = .ok [0, 0, 0, 5] ∧
    synchsafeDecode [0, 0, 0, 5] = .ok 5 ∧
    synchsafeEncode 268435456 = .error "value exceeds 28-bit synchsafe range" ∧
    synchsafeDecode [255, 0, 0, 0] = .error "non-synchsafe byte: bit 7 set" :=
  have h := synchsafe_codec_spec 5 268435456 (by norm_num) (by norm_num)
  ⟨h.1, h.2.1, h.2.2.1, h.2.2.2 255 0 0 0 (by norm_num)⟩

/-- C9: `detect_mime_type` is a pure total function of the extension, matched
case-insensitively: Ok "image/jpeg" exactly when the lowercased extension is
"jpg" or "jpeg", Ok "image/png" exactly for "png", Ok "image/webp" exactly for
"webp", and an error for every other extension and for a missing extension. -/
theorem detect_mime_type_spec (e : String) :
    (detect_mime_type (some e) = .ok "image/jpeg"
        ↔ (asciiLower e = "jpg" ∨ asciiLower e = "jpeg")) ∧
    (detect_mime_type (some e) = .ok "image/png" ↔ asciiLower e = "png") ∧
    (detect_mime_type (some e) = .ok "image/webp" ↔ asciiLower e = "webp") ∧
    ((∃ msg, detect_mime_type (some e) = .error msg)
        ↔ ¬(asciiLower e = "jpg" ∨ asciiLower e = "jpeg" ∨
            asciiLower e = "png" ∨ asciiLower e = "webp")) ∧
    (∃ msg, detect_mime_type none = .error msg) := by
  refine ⟨?_, ?_, ?_, ?_, ⟨_, rfl⟩⟩ <;>
  · simp only [detect_mime_type]
    by_cases h1 : asciiLower e = "jpg" <;> by_cases h2 : asciiLower e = "jpeg" <;>
      by_cases h3 : asciiLower e = "png" <;> by_cases h4 : asciiLower e = "webp" <;>
      simp_all

/-- C10: `apply_metadata` returns true iff at least one change was applied: the
changed flag equals the disjunction of the per-argument conditions (a date only
counts when it parses as a timestamp), and whenever the flag is false — in
particular when every argument is `none`/empty, or when the only given argument
is an unparseable date — the tag is returned completely unchanged. -/
theorem apply_metadata_changed_iff (tag : Tag) (title : Option String)
    (artists : List String) (album : Option String) (year : Option Int)
    (genre : Option String) (track : Option Nat) (season : Option Nat)
    (date : Option String) (copyright : Option String) (composer : Option String)
    (subtitle : Option String) (original_artist : Option String)
    (album_artist : Option String) :
    (apply_metadata tag title artists album year genre track season date copyright
        composer subtitle original_artist album_artist).2
      = (title.isSome || !artists.isEmpty || album.isSome || year.isSome ||
         genre.isSome || track.isSome || season.isSome ||
         (date.bind parseTimestamp).isSome || copyright.isSome || composer.isSome ||
         subtitle.isSome || original_artist.isSome || album_artist.isSome) ∧
    ((apply_metadata tag title artists album year genre track season date copyright
        composer subtitle original_artist album_artist).2 = false →
      (apply_metadata tag title artists album year genre track season date copyright
        composer subtitle original_artist album_artist).1 = tag) := by
  have heq := apply_metadata_snd tag title artists album year genre track season date
    copyright composer subtitle original_artist album_artist
  refine ⟨heq, ?_⟩
  intro hf
  rw [heq] at hf
  simp only [Bool.or_eq_false_iff] at hf
  obtain ⟨⟨⟨⟨⟨⟨⟨⟨⟨⟨⟨⟨h1, h2⟩, h3⟩, h4⟩, h5⟩, h6⟩, h7⟩, h8⟩, h9⟩, h10⟩, h11⟩, h12⟩, h13⟩ := hf
  have e1 : title = none := by cases title <;> simp_all
  have e2 : artists = [] := by cases artists <;> simp_all
  have e3 : album = none := by cases album <;> simp_all
  have e4 : year = none := by cases year <;> simp_all
  have e5 : genre = none := by cases genre <;> simp_all
  have e6 : track = none := by cases track <;> simp_all
  have e7 : season = none := by cases season <;> simp_all
  have e9 : copyright = none := by cases copyright <;> simp_all
  have e10 : composer = none := by cases composer <;> simp_all
  have e11 : subtitle = none := by cases subtitle <;> simp_all
  have e12 : original_artist = none := by cases original_artist <;> simp_all
  have e13 : album_artist = none := by cases album_artist <;> simp_all
  subst e1 e2 e3 e4 e5 e6 e7 e9 e10 e11 e12 e13
  cases date with
  | none => rfl
  | some d =>
    have hp : parseTimestamp d = none := by
      cases hpp : parseTimestamp d <;> simp_all
    simp [apply_metadata, applyTitle, applyArtists, applyAlbum, applyYear, applyGenre,
      applyTrack, applySeason, applyDate, applyCopyright, applyComposer, applySubtitle,
      applyOriginalArtist, applyAlbumArtist, hp]

/-- Witness for C10: a call whose only given argument is the unparseable date
`"not-a-date"` returns `false` and leaves the tag unchanged. -/
theorem apply_metadata_changed_iff_witness :
    (apply_metadata Tag.empty none [] none none none none none (some "not-a-date")
        none none none none none).1 = Tag.empty ∧
    (apply_metadata Tag.empty none [] none none none none none (some "not-a-date")
        none none none none none).2 = false := by
  have h := apply_metadata_changed_iff Tag.empty none [] none none none none none
    (some "not-a-date") none none none none none
  refine ⟨h.2 ?_, ?_⟩ <;> · rw [h.1]; decide

end Id3cli
